import Mathlib

/-!
Shallow embedding of the authorization core of the avantle core API
(`src/middleware/auth.ts`, `src/middleware/rbac.ts`, `src/routes/auth.ts`,
`src/app.ts`, `src/lib/config.ts`), together with theorems settling the
spec claims about it.

JavaScript strings are modelled by Lean `String`; the string operations the
source uses (`startsWith`, `includes`, regex segment capture) are modelled
over the underlying character list (`String.data`), which has the same
semantics and is kernel-computable.
-/

namespace Avantle

/-- JS `s.startsWith(pre)`. -/
def strStartsWith (s pre : String) : Bool := pre.data.isPrefixOf s.data

/-- JS `s.endsWith(suf)`. -/
def strEndsWith (s suf : String) : Bool := suf.data.isSuffixOf s.data

/-- Occurrence of `pat` anywhere in `l` (JS `String.prototype.includes`). -/
def charsContain (l pat : List Char) : Bool :=
  match l with
  | [] => pat.isEmpty
  | _ :: t => pat.isPrefixOf l || charsContain t pat

/-- JS `s.includes(pat)`. -/
def strContains (s pat : String) : Bool := charsContain s.data pat.data

/-- The `Role` enum of the Prisma schema. -/
inductive Role
  | PLATFORM_ADMIN
  | PARTNER_ADMIN
  | TENANT_ADMIN
  | TENANT_USER
deriving DecidableEq, Repr

/-- One entry of the `tenant_context` array embedded in a JWT
(`types/auth.ts`, `TenantContext`). `tenant_type` is kept as a string. -/
structure TenantContext where
  tenant_id : String
  tenant_name : String
  tenant_type : String
  role : Role
deriving DecidableEq, Repr

/-- The JWT payload (`types/auth.ts`, `JWTPayload`). -/
structure JWTPayload where
  sub : String
  email : String
  role : Role
  tenant_context : List TenantContext
  iat : Nat
  exp : Nat
  iss : String
deriving DecidableEq, Repr

/-- A presented bearer token: the claims it carries plus whether its
signature verifies against the server secret.  A structurally malformed or
tampered token is one with `sigValid = false`. -/
structure Token where
  payload : JWTPayload
  sigValid : Bool
deriving DecidableEq, Repr

inductive VerifyError
  | expired
  | invalid
deriving DecidableEq, Repr

/-- Verification performed by the JWT library (`@fastify/jwt`) when the
middleware calls `request.jwtVerify()`: reject a bad signature or malformed
structure as `invalid`, reject a token past its expiry (`now ≥ exp`,
inclusive boundary) as `expired`, otherwise return the embedded payload. -/
def jwtVerify (now : Nat) (tok : Token) : Except VerifyError JWTPayload :=
  if !tok.sigValid then .error .invalid
  else if tok.payload.exp ≤ now then .error .expired
  else .ok tok.payload

/-- The `request.context.tenant_id` extraction in `authMiddleware`
(`src/middleware/auth.ts` lines 67-73): only URLs starting with
`/tenants/` are matched against `^\/tenants\/([^\/]+)`; the capture is the
maximal nonempty run of non-`/` characters after the prefix. -/
def extractTenantId (url : String) : Option String :=
  if strStartsWith url "/tenants/" then
    let seg := (url.data.drop 9).takeWhile (fun c => c ≠ '/')
    if seg.isEmpty then none else some ⟨seg⟩
  else none

/-- Outcome of the `authMiddleware` `onRequest` hook for one request.
`tokenExpired` mirrors `ErrorCode.TOKEN_EXPIRED` (defined in
`types/api.ts` and emitted only by the global error handler for escaped
fastify-jwt errors); it is included so that claims about it can be stated. -/
inductive AuthOutcome
  | skipped
  | unauthorized
  | tokenExpired
  | tokenInvalid
  | internalError
  | allowed (user : JWTPayload) (ctxTenant : Option String)
deriving DecidableEq, Repr

/-- The paths `authMiddleware` skips (`src/middleware/auth.ts` line 17). -/
def authSkip (url : String) : Bool :=
  strStartsWith url "/health" || strStartsWith url "/docs"

/-- The `authMiddleware` hook (`src/middleware/auth.ts`): skip health/docs,
401 `UNAUTHORIZED` without a token, 401 `TOKEN_INVALID` when
`request.jwtVerify()` throws for any reason (the catch at lines 38-53 does
not inspect the cause), otherwise attach the payload and the extracted
tenant context. -/
def authDecision (now : Nat) (url : String) (token : Option Token) : AuthOutcome :=
  if authSkip url then .skipped
  else
    match token with
    | none => .unauthorized
    | some tok =>
      match jwtVerify now tok with
      | .error _ => .tokenInvalid
      | .ok payload => .allowed payload (extractTenantId url)

/-- An access rule of the static `accessRules` table (`types/auth.ts`,
`AccessRule`); the declared `conditions` are carried but never read by the
middleware. -/
structure AccessRule where
  role : Role
  permissions : List String
  conditions : List (String × String × String) := []
deriving DecidableEq, Repr

/-- The RBAC rules table (`src/middleware/rbac.ts` lines 9-61). -/
def accessRules : List AccessRule :=
  [ { role := .PLATFORM_ADMIN,
      permissions :=
        ["partners:read", "partners:write", "partners:delete",
         "tenants:read", "tenants:write", "tenants:delete",
         "plans:read", "plans:write",
         "domains:read", "domains:write", "domains:verify",
         "usage:read",
         "system:read", "system:write"] },
    { role := .PARTNER_ADMIN,
      permissions :=
        ["partners:read",
         "tenants:read", "tenants:write",
         "domains:read", "domains:write", "domains:verify",
         "usage:read"],
      conditions := [("partner_id", "equals", "user.partner_id")] },
    { role := .TENANT_ADMIN,
      permissions :=
        ["tenants:read",
         "domains:read", "domains:write",
         "usage:read"],
      conditions := [("tenant_id", "equals", "user.tenant_id")] },
    { role := .TENANT_USER,
      permissions :=
        ["tenants:read",
         "usage:read"],
      conditions := [("tenant_id", "equals", "user.tenant_id")] } ]

/-- The classifier `getRequiredPermission` (`src/middleware/rbac.ts` lines 63-96). -/
def getRequiredPermission (method path : String) : Option String :=
  let isWrite := ["POST", "PUT", "PATCH"].contains method
  let isDelete := method == "DELETE"
  if strStartsWith path "/partners" then
    if isDelete then some "partners:delete"
    else if isWrite then some "partners:write" else some "partners:read"
  else if strStartsWith path "/tenants" then
    if isDelete then some "tenants:delete"
    else if isWrite then some "tenants:write" else some "tenants:read"
  else if strStartsWith path "/plans" then
    if isWrite then some "plans:write" else some "plans:read"
  else if strStartsWith path "/domains" then
    if strContains path "/verify" then some "domains:verify"
    else if isWrite then some "domains:write" else some "domains:read"
  else if strStartsWith path "/usage" || strStartsWith path "/admin/dashboard" then
    some "usage:read"
  else if strStartsWith path "/system" || strStartsWith path "/admin" then
    if isWrite then some "system:write" else some "system:read"
  else none

/-- A `membership` row (`user_id`, `tenant_id`, `role`). -/
structure Membership where
  user_id : String
  tenant_id : String
  role : Role
deriving DecidableEq, Repr

/-- A `tenant` row, reduced to the columns `checkTenantAccess` reads:
its id and the partner that owns it. -/
structure Tenant where
  id : String
  partner_id : String
deriving DecidableEq, Repr

/-- The persisted state `checkTenantAccess` queries.  Row order matters:
Prisma's `findFirst` returns the first matching row. -/
structure DB where
  memberships : List Membership
  tenants : List Tenant
deriving Repr

/-- The try-block of `checkTenantAccess` (`src/middleware/rbac.ts` lines
101-144).  `dbThrows` models the persistence layer throwing on its queries;
the `PLATFORM_ADMIN` branch returns before any query is issued.

The `PARTNER_ADMIN` branch runs
`membership.findFirst({where: {user_id, role: PARTNER_ADMIN}})` including
`tenant.partner.tenants` filtered to `{id: tenantId}`, then tests
`membership?.tenant.partner.tenants.length > 0`; the partner's tenants are
the tenants whose `partner_id` equals the membership's tenant's
`partner_id`.  The `TENANT_ADMIN`/`TENANT_USER` branch runs
`membership.findFirst({where: {user_id, tenant_id, role: {in: [TENANT_ADMIN,
TENANT_USER]}}})` and tests presence. -/
def checkTenantAccessTry (db : DB) (dbThrows : Bool) (userId tenantId : String)
    (role : Role) : Except Unit Bool :=
  match role with
  | .PLATFORM_ADMIN => .ok true
  | .PARTNER_ADMIN =>
    if dbThrows then .error () else
    match db.memberships.find? (fun m => m.user_id == userId && m.role == Role.PARTNER_ADMIN) with
    | none => .ok false
    | some m =>
      match db.tenants.find? (fun t => t.id == m.tenant_id) with
      | none => .ok false
      | some tn =>
        .ok (decide (0 < (db.tenants.filter
          (fun t2 => t2.partner_id == tn.partner_id && t2.id == tenantId)).length))
  | .TENANT_ADMIN | .TENANT_USER =>
    if dbThrows then .error () else
    .ok (db.memberships.find? (fun m =>
      m.user_id == userId && m.tenant_id == tenantId &&
      (m.role == Role.TENANT_ADMIN || m.role == Role.TENANT_USER))).isSome

/-- The resolver `checkTenantAccess` (`src/middleware/rbac.ts` lines 98-149): the
try-block wrapped in the catch that logs and returns `false`. -/
def checkTenantAccess (db : DB) (dbThrows : Bool) (userId tenantId : String)
    (role : Role) : Bool :=
  match checkTenantAccessTry db dbThrows userId tenantId role with
  | .ok b => b
  | .error _ => false

/-- Outcome of the `rbacMiddleware` `onRequest` hook.  `forbidden` carries
the response message, distinguishing the three 403 sites; `internalError`
mirrors `ErrorCode.INTERNAL_SERVER_ERROR` and is included so that claims
about it can be stated. -/
inductive RbacOutcome
  | allowed
  | unauthorized
  | forbidden (message : String)
  | internalError
deriving DecidableEq, Repr

/-- The paths `rbacMiddleware` skips (`src/middleware/rbac.ts` lines 154-157). -/
def rbacSkip (url : String) : Bool :=
  strStartsWith url "/health" || strStartsWith url "/docs" ||
  strStartsWith url "/auth" || url == "/"

/-- The `rbacMiddleware` hook body (`src/middleware/rbac.ts` lines 152-248),
with the tenant access check abstracted as `tenantCheck` (in the wired
system it is `checkTenantAccess` against the live database) and the
request context's `tenant_id` passed explicitly (in the wired system it is
what `authMiddleware` put there). -/
def rbacDecisionCtx (tenantCheck : String → String → Role → Bool)
    (method url : String) (user : Option JWTPayload) (ctxTenant : Option String) :
    RbacOutcome :=
  if rbacSkip url then .allowed
  else
    match user with
    | none => .unauthorized
    | some u =>
      match getRequiredPermission method url with
      | none => .allowed
      | some requiredPermission =>
        match accessRules.find? (fun rule => rule.role == u.role) with
        | none => .forbidden "Access denied"
        | some accessRule =>
          if !(accessRule.permissions.contains requiredPermission) then
            .forbidden "Insufficient permissions"
          else if u.role != Role.PLATFORM_ADMIN then
            match ctxTenant with
            | some tid =>
              if !(tenantCheck u.sub tid u.role) then
                .forbidden "Access denied to this tenant"
              else .allowed
            | none => .allowed
          else .allowed

/-- The auth/rbac pipeline as wired: `rbacMiddleware` runs after
`authMiddleware` has set `context.tenant_id` from the URL. -/
def rbacDecision (tenantCheck : String → String → Role → Bool)
    (method url : String) (user : Option JWTPayload) : RbacOutcome :=
  rbacDecisionCtx tenantCheck method url user (extractTenantId url)

/-- A membership row as fetched by the login handler's `findUnique`
include: the role plus the joined tenant's selected columns
(`src/routes/auth.ts` lines 68-83). -/
structure UserMembership where
  role : Role
  tenant_id : String
  tenant_name : String
  tenant_type : String
deriving DecidableEq, Repr

/-- A `user` row with its memberships, as fetched at login. -/
structure User where
  id : String
  email : String
  name : String
  password : Option String
  memberships : List UserMembership
deriving DecidableEq, Repr

/-- Primary-role policy of the login handler (`src/routes/auth.ts` lines
125-131): the bootstrap admin address gets `PLATFORM_ADMIN`; otherwise the
first membership's role; otherwise `TENANT_USER`. -/
def primaryRole (user : User) : Role :=
  if user.email == "admin@avantle.ai" then .PLATFORM_ADMIN
  else
    match user.memberships with
    | [] => .TENANT_USER
    | m :: _ => m.role

/-- The claims the login handler passes to `jwtSign`
(`src/routes/auth.ts` lines 134-144): `iat`/`exp`/`iss` are added by the
JWT plugin at signing time. -/
structure LoginClaims where
  sub : String
  email : String
  role : Role
  tenant_context : List TenantContext
deriving DecidableEq, Repr

/-- The payload built by the login handler for a user. -/
def loginJwtPayload (user : User) : LoginClaims :=
  { sub := user.id
    email := user.email
    role := primaryRole user
    tenant_context := user.memberships.map (fun m =>
      { tenant_id := m.tenant_id
        tenant_name := m.tenant_name
        tenant_type := m.tenant_type
        role := m.role }) }

/-- Signing via `reply.jwtSign` as configured: the plugin signs the claims with the
server secret and stamps issued-at, expiry (`iat + lifetime`) and issuer. -/
def jwtSign (now lifetime : Nat) (iss : String) (c : LoginClaims) : Token :=
  { payload :=
      { sub := c.sub, email := c.email, role := c.role,
        tenant_context := c.tenant_context,
        iat := now, exp := now + lifetime, iss := iss }
    sigValid := true }

/-- Result of `POST /auth/login` (`src/routes/auth.ts` lines 62-188),
restricted to the authentication logic: 401 `UNAUTHORIZED` for an unknown
email or failed password check, otherwise a 200 with the signed token and
the hardcoded `expires_in`. -/
inductive LoginResult
  | success (claims : LoginClaims) (token : Token) (expires_in : Nat)
  | invalidCredentials
deriving DecidableEq, Repr

/-- The login handler.  `bcryptCompare` abstracts `bcrypt.compare`;
`dbUser` is the result of the `findUnique` lookup by email.  The password
check is `user.email === 'admin@avantle.ai' || await bcrypt.compare(...)`
(`src/routes/auth.ts` lines 104-105), and the response reports
`expires_in: 86400` (line 163). -/
def login (bcryptCompare : String → String → Bool) (now lifetime : Nat)
    (iss : String) (dbUser : Option User) (password : String) : LoginResult :=
  match dbUser with
  | none => .invalidCredentials
  | some user =>
    let isValidPassword :=
      user.email == "admin@avantle.ai" || bcryptCompare password (user.password.getD "")
    if !isValidPassword then .invalidCredentials
    else
      let claims := loginJwtPayload user
      .success claims (jwtSign now lifetime iss claims) 86400

/-- The `expiresIn` option the exported app builder passes to the JWT
plugin (`src/app.ts`, `build()`): `process.env.JWT_EXPIRES_IN || '1h'`. -/
def buildJwtExpiresIn (env : Option String) : String := env.getD "1h"

/-- The `expires_in` value of `appConfig.jwt` (`src/lib/config.ts`), used
by the production `buildServer`: `process.env.JWT_EXPIRES_IN || '24h'`. -/
def appConfigJwtExpiresIn (env : Option String) : String := env.getD "24h"

/-- The `expires_in` the login response body reports
(`src/routes/auth.ts` line 163). -/
def loginReportedExpiresIn : Nat := 86400

/-- Digit-string parsing used by duration strings. -/
def parseNatChars : List Char → Nat → Option Nat
  | [], acc => some acc
  | c :: cs, acc =>
    if c.isDigit then parseNatChars cs (acc * 10 + (c.toNat - 48)) else none

/-- Seconds denoted by an hours-style duration string `"<n>h"`, as the JWT
library interprets its `expiresIn` option; other shapes are out of scope. -/
def durationSeconds (s : String) : Option Nat :=
  if strEndsWith s "h" then
    let ds := s.data.take (s.data.length - 1)
    if ds.isEmpty then none else (parseNatChars ds 0).map (· * 3600)
  else none




/-! ## Shared concrete instances and helper lemmas -/

/-- Scenario database: principal `"u"` holds a `PARTNER_ADMIN` membership
in tenant `"t1"`; partner `"p1"` owns `"t1"` and `"t2"`, partner `"p2"`
owns `"t3"`. -/
def exDbA : DB :=
  { memberships := [⟨"u", "t1", .PARTNER_ADMIN⟩]
    tenants := [⟨"t1", "p1"⟩, ⟨"t2", "p1"⟩, ⟨"t3", "p2"⟩] }

/-- A request principal with role `TENANT_USER` and subject `"u"`. -/
def exUserTU : JWTPayload :=
  { sub := "u", email := "user@x.io", role := .TENANT_USER, tenant_context := [],
    iat := 0, exp := 100, iss := "core.avantle.ai" }

/-- A database granting `"u"` a `TENANT_USER` membership on `"t1"`. -/
def exDbT1 : DB :=
  { memberships := [⟨"u", "t1", .TENANT_USER⟩]
    tenants := [⟨"t1", "p1"⟩] }

/-- The `rbacMiddleware` hook has no 500 path: every branch answers
`allowed`, `unauthorized` or a 403 `forbidden`. -/
theorem rbacDecisionCtx_ne_internalError
    (tc : String → String → Role → Bool) (method url : String)
    (user : Option JWTPayload) (ctxTenant : Option String) :
    rbacDecisionCtx tc method url user ctxTenant ≠ .internalError := by
  unfold rbacDecisionCtx
  (repeat' split) <;> decide

/-- With no tenant id in the request context, the tenant-check callback of
`rbacDecisionCtx` is dead code: the decision does not depend on it. -/
theorem rbacDecisionCtx_none_indep
    (tc tc' : String → String → Role → Bool) (method url : String)
    (user : Option JWTPayload) :
    rbacDecisionCtx tc method url user none = rbacDecisionCtx tc' method url user none := rfl

/-! ## C2 -/

/-- C2, counterexample: with the persistence layer throwing, a `GET
/tenants/t1` by the `TENANT_USER` principal `"u"` — whose membership in the
database would grant access — is answered 403 `FORBIDDEN` ("Access denied
to this tenant"), not `InternalError`. -/
theorem C2_counterexample :
    checkTenantAccess exDbT1 false "u" "t1" .TENANT_USER = true ∧
    checkTenantAccess exDbT1 true "u" "t1" .TENANT_USER = false ∧
    rbacDecision (checkTenantAccess exDbT1 true) "GET" "/tenants/t1" (some exUserTU) =
      .forbidden "Access denied to this tenant" ∧
    rbacDecision (checkTenantAccess exDbT1 true) "GET" "/tenants/t1" (some exUserTU) ≠
      .internalError := by decide

/-- C2, amended: a persistence-layer failure inside `checkTenantAccess` is
fail-closed — every non-`PLATFORM_ADMIN` role is denied (`false`), and the
middleware surfaces the denial as a 403 `FORBIDDEN`, never as an internal
error (the hook has no 500 path at all). -/
theorem C2_failure_fail_closed_as_forbidden (db : DB) (userId tenantId : String)
    (role : Role) (h : role ≠ .PLATFORM_ADMIN) :
    checkTenantAccess db true userId tenantId role = false ∧
    ∀ method url user ctxTenant,
      rbacDecisionCtx (checkTenantAccess db true) method url user ctxTenant ≠
        .internalError := by
  constructor
  · cases role with
    | PLATFORM_ADMIN => exact absurd rfl h
    | _ => simp [checkTenantAccess, checkTenantAccessTry]
  · intro method url user ctxTenant
    exact rbacDecisionCtx_ne_internalError _ method url user ctxTenant

/-- C2 witness: the amended theorem applied to the concrete failing lookup
of the counterexample scenario. -/
theorem C2_witness :
    checkTenantAccess exDbT1 true "u" "t1" .TENANT_USER = false :=
  (C2_failure_fail_closed_as_forbidden exDbT1 "u" "t1" .TENANT_USER (by decide)).1

/-! ## C3 -/

/-- A token with a valid signature whose expiry (50) has passed. -/
def expiredTok : Token :=
  { payload :=
      { sub := "u", email := "user@x.io", role := .TENANT_USER, tenant_context := [],
        iat := 0, exp := 50, iss := "core.avantle.ai" }
    sigValid := true }

/-- C3, counterexample: at time 100 the token is expired (the library
reports `expired`), yet the auth middleware denies the protected path
`/partners` with `TOKEN_INVALID` — the same code a tampered token gets —
and never with `TOKEN_EXPIRED`. -/
theorem C3_counterexample :
    jwtVerify 100 expiredTok = .error .expired ∧
    authDecision 100 "/partners" (some expiredTok) = .tokenInvalid ∧
    authDecision 100 "/partners" (some expiredTok) ≠ .tokenExpired :=
  ⟨rfl, by decide, by decide⟩

/-- C3, amended: on a non-skipped path, every token-verification failure —
expired, tampered or malformed alike — is denied with the single code
`TOKEN_INVALID`; the middleware never issues `TOKEN_EXPIRED` (the
`TOKEN_EXPIRED` branch of the global error handler is unreachable because
the middleware catches `jwtVerify` errors itself). -/
theorem C3_all_failures_token_invalid (now : Nat) (url : String) (tok : Token)
    (e : VerifyError) (hskip : authSkip url = false)
    (hfail : jwtVerify now tok = .error e) :
    authDecision now url (some tok) = .tokenInvalid ∧
    authDecision now url (some tok) ≠ .tokenExpired := by
  simp [authDecision, hskip, hfail]

/-- C3 witness: the amended theorem applied to the concrete expired token. -/
theorem C3_witness :
    authDecision 100 "/partners" (some expiredTok) = .tokenInvalid ∧
    authDecision 100 "/partners" (some expiredTok) ≠ .tokenExpired :=
  C3_all_failures_token_invalid 100 "/partners" expiredTok .expired (by decide) rfl

/-! ## C4 -/

/-- C4: if the looked-up user's email is `admin@avantle.ai`, the login
succeeds for every password and every behaviour of `bcrypt.compare`, and
the issued claims carry role `PLATFORM_ADMIN`. -/
theorem C4_admin_password_bypass (bcryptCompare : String → String → Bool)
    (now lifetime : Nat) (iss : String) (user : User) (password : String)
    (h : user.email = "admin@avantle.ai") :
    login bcryptCompare now lifetime iss (some user) password =
      .success (loginJwtPayload user)
        (jwtSign now lifetime iss (loginJwtPayload user)) 86400 ∧
    (loginJwtPayload user).role = .PLATFORM_ADMIN := by
  constructor
  · simp [login, h]
  · simp [loginJwtPayload, primaryRole, h]

/-- The bootstrap admin user row, with a stored password hash. -/
def adminUser : User :=
  { id := "u0", email := "admin@avantle.ai", name := "Platform Admin",
    password := some "$2a$12$hash", memberships := [] }

/-- C4 witness: even with a comparison that rejects everything and a wrong
password, the admin login succeeds with `PLATFORM_ADMIN`. -/
theorem C4_witness :
    login (fun _ _ => false) 0 3600 "core.avantle.ai" (some adminUser) "wrong-password" =
      .success (loginJwtPayload adminUser)
        (jwtSign 0 3600 "core.avantle.ai" (loginJwtPayload adminUser)) 86400 ∧
    (loginJwtPayload adminUser).role = .PLATFORM_ADMIN :=
  C4_admin_password_bypass (fun _ _ => false) 0 3600 "core.avantle.ai" adminUser
    "wrong-password" rfl

/-! ## C5 -/

/-- C5: with `JWT_EXPIRES_IN` unset, the exported app builder signs tokens
that live 3600 seconds (`'1h'`), while the login response reports
`expires_in = 86400`; only the production config's default (`'24h'`)
matches the reported 24 hours. -/
theorem C5_expiry_mismatch :
    durationSeconds (buildJwtExpiresIn none) = some 3600 ∧
    durationSeconds (appConfigJwtExpiresIn none) = some 86400 ∧
    loginReportedExpiresIn = 86400 ∧
    durationSeconds (buildJwtExpiresIn none) ≠ some loginReportedExpiresIn := by decide

/-! ## C6 -/

/-- Two strings of which neither prefixes the other cannot both prefix a
third; so a path that starts with `p` does not start with `q`. -/
theorem startsWith_excl (s p q : String)
    (hp : strStartsWith s p = true)
    (hpq : strStartsWith p q = false) (hqp : strStartsWith q p = false) :
    strStartsWith s q = false := by
  unfold strStartsWith at *
  by_contra hc
  rw [Bool.not_eq_false, List.isPrefixOf_iff_prefix] at hc
  rw [ List.isPrefixOf_iff_prefix] at hp
  rcases List.prefix_or_prefix_of_prefix hc hp with h | h
  · rw [← List.isPrefixOf_iff_prefix] at h
    simp [h] at hpq
  · rw [← List.isPrefixOf_iff_prefix] at h
    simp [h] at hqp

/-- Prefix transitivity for `strStartsWith`. -/
theorem startsWith_mono (s p q : String)
    (hpq : strStartsWith p q = true) (hp : strStartsWith s p = true) :
    strStartsWith s q = true := by
  unfold strStartsWith at *
  rw [ List.isPrefixOf_iff_prefix] at *
  exact hpq.trans hp

/-- C6: whenever the classifier demands a permission the principal's rule
does not list, the middleware answers 403 `FORBIDDEN` ("Insufficient
permissions") and the decision is independent of the tenant-check — the
tenant-scoping step is never evaluated. -/
theorem C6_permission_denial_short_circuits
    (tc tc2 : String → String → Role → Bool) (method url : String) (u : JWTPayload)
    (rule : AccessRule) (p : String)
    (hskip : rbacSkip url = false)
    (hperm : getRequiredPermission method url = some p)
    (hrule : accessRules.find? (fun r => r.role == u.role) = some rule)
    (hnoperm : rule.permissions.contains p = false) :
    rbacDecision tc method url (some u) = .forbidden "Insufficient permissions" ∧
    rbacDecision tc method url (some u) = rbacDecision tc2 method url (some u) := by
  have key : ∀ t0, rbacDecision t0 method url (some u) =
      .forbidden "Insufficient permissions" := by
    intro t0
    simp [rbacDecision, rbacDecisionCtx, hskip, hperm, hrule, hnoperm]
    intro hmem
    simp at hnoperm
    exact absurd hmem hnoperm
  exact ⟨key tc, (key tc).trans (key tc2).symm⟩

/-- The `TENANT_USER` row of `accessRules`. -/
def tenantUserRule : AccessRule :=
  { role := .TENANT_USER
    permissions := ["tenants:read", "usage:read"]
    conditions := [("tenant_id", "equals", "user.tenant_id")] }

/-- C6 witness (spec scenario C): a `TENANT_USER` with a membership on
`t1` issuing `POST /tenants/t1` is denied for lack of `tenants:write`,
even under a tenant-check that would grant access to everything. -/
theorem C6_witness :
    rbacDecision (fun _ _ _ => true) "POST" "/tenants/t1" (some exUserTU) =
      .forbidden "Insufficient permissions" ∧
    rbacDecision (fun _ _ _ => true) "POST" "/tenants/t1" (some exUserTU) =
      rbacDecision (fun _ _ _ => false) "POST" "/tenants/t1" (some exUserTU) :=
  C6_permission_denial_short_circuits (fun _ _ _ => true) (fun _ _ _ => false)
    "POST" "/tenants/t1" exUserTU tenantUserRule "tenants:write"
    (by decide) (by decide) (by decide) (by decide)

/-! ## C7 -/

/-- C7: every path under `/usage` and every path under `/admin/dashboard`
classifies to `usage:read` for every HTTP method, write verbs included. -/
theorem C7_usage_paths_need_only_read (method path : String)
    (h : strStartsWith path "/usage" = true ∨ strStartsWith path "/admin/dashboard" = true) :
    getRequiredPermission method path = some "usage:read" := by
  have h1 : strStartsWith path "/partners" = false := by
    rcases h with h | h
    · exact startsWith_excl path "/usage" "/partners" h (by decide) (by decide)
    · exact startsWith_excl path "/admin/dashboard" "/partners" h (by decide) (by decide)
  have h2 : strStartsWith path "/tenants" = false := by
    rcases h with h | h
    · exact startsWith_excl path "/usage" "/tenants" h (by decide) (by decide)
    · exact startsWith_excl path "/admin/dashboard" "/tenants" h (by decide) (by decide)
  have h3 : strStartsWith path "/plans" = false := by
    rcases h with h | h
    · exact startsWith_excl path "/usage" "/plans" h (by decide) (by decide)
    · exact startsWith_excl path "/admin/dashboard" "/plans" h (by decide) (by decide)
  have h4 : strStartsWith path "/domains" = false := by
    rcases h with h | h
    · exact startsWith_excl path "/usage" "/domains" h (by decide) (by decide)
    · exact startsWith_excl path "/admin/dashboard" "/domains" h (by decide) (by decide)
  rcases h with h | h <;> simp [getRequiredPermission, h1, h2, h3, h4, h]

/-- C7 witness: recording usage (`POST /usage/record`) and a delete verb on
the admin dashboard both classify to `usage:read`. -/
theorem C7_witness :
    getRequiredPermission "POST" "/usage/record" = some "usage:read" ∧
    getRequiredPermission "DELETE" "/admin/dashboard" = some "usage:read" :=
  ⟨C7_usage_paths_need_only_read "POST" "/usage/record" (Or.inl (by decide)),
   C7_usage_paths_need_only_read "DELETE" "/admin/dashboard" (Or.inr (by decide))⟩

/-! ## C8 -/

/-- C8: any path matching none of the classifier's prefixes requires no
permission, and the RBAC hook then lets the (authenticated) request
through with neither a permission nor a tenant check, for every
tenant-check behaviour. -/
theorem C8_classifier_fail_open (method url : String) (u : JWTPayload)
    (tc : String → String → Role → Bool)
    (h1 : strStartsWith url "/partners" = false)
    (h2 : strStartsWith url "/tenants" = false)
    (h3 : strStartsWith url "/plans" = false)
    (h4 : strStartsWith url "/domains" = false)
    (h5 : strStartsWith url "/usage" = false)
    (h6 : strStartsWith url "/admin" = false)
    (h7 : strStartsWith url "/system" = false) :
    getRequiredPermission method url = none ∧
    rbacDecision tc method url (some u) = .allowed := by
  have had : strStartsWith url "/admin/dashboard" = false := by
    by_contra hc
    rw [Bool.not_eq_false] at hc
    rw [startsWith_mono url "/admin/dashboard" "/admin" (by decide) hc] at h6
    exact Bool.true_eq_false.mp h6
  have hnone : getRequiredPermission method url = none := by
    simp [getRequiredPermission, h1, h2, h3, h4, h5, h6, h7, had]
  refine ⟨hnone, ?_⟩
  by_cases hsk : rbacSkip url
  · simp [rbacDecision, rbacDecisionCtx, hsk]
  · simp [rbacDecision, rbacDecisionCtx, hsk, hnone]

/-- C8 witness: `DELETE /webhooks/7` — a prefix the classifier does not
know — requires no permission and is allowed outright. -/
theorem C8_witness :
    getRequiredPermission "DELETE" "/webhooks/7" = none ∧
    rbacDecision (fun _ _ _ => false) "DELETE" "/webhooks/7" (some exUserTU) = .allowed :=
  C8_classifier_fail_open "DELETE" "/webhooks/7" exUserTU (fun _ _ _ => false)
    (by decide) (by decide) (by decide) (by decide) (by decide) (by decide) (by decide)

/-! ## C9 -/

/-- C9: verifying a freshly signed login token reconstructs `sub`, `role`
and `tenant_context` exactly as placed in the payload at issuance, with no
further lookup, for any user with a non-empty membership list and any
positive lifetime. -/
theorem C9_token_roundtrip (u : User) (now lifetime : Nat) (iss : String)
    (_hm : u.memberships ≠ []) (hl : 0 < lifetime) :
    ∃ p, jwtVerify now (jwtSign now lifetime iss (loginJwtPayload u)) = .ok p ∧
      p.sub = u.id ∧ p.role = (loginJwtPayload u).role ∧
      p.tenant_context = (loginJwtPayload u).tenant_context := by
  refine ⟨(jwtSign now lifetime iss (loginJwtPayload u)).payload, ?_, rfl, rfl, rfl⟩
  simp [jwtVerify, jwtSign]
  omega

/-- A user with one `TENANT_ADMIN` membership. -/
def exUserOneMembership : User :=
  { id := "u1", email := "one@x.io", name := "One",
    password := some "$2a$12$hash",
    memberships := [{ role := .TENANT_ADMIN, tenant_id := "t1",
                      tenant_name := "Tenant One", tenant_type := "UI" }] }

/-- C9 witness: the round-trip at a concrete user and lifetime. -/
theorem C9_witness :
    ∃ p, jwtVerify 1000 (jwtSign 1000 3600 "core.avantle.ai"
        (loginJwtPayload exUserOneMembership)) = .ok p ∧
      p.sub = exUserOneMembership.id ∧
      p.role = (loginJwtPayload exUserOneMembership).role ∧
      p.tenant_context = (loginJwtPayload exUserOneMembership).tenant_context :=
  C9_token_roundtrip exUserOneMembership 1000 3600 "core.avantle.ai"
    (by decide) (by decide)

/-! ## C10 -/

/-- C10: on any URL not starting with `/tenants/`, no target tenant id is
put into the request context, and the RBAC decision is the same whatever
the tenant-access resolver would answer — the resolver is never consulted. -/
theorem C10_no_scoping_off_tenants_paths (method url : String) (u : JWTPayload)
    (tc tc2 : String → String → Role → Bool)
    (h : strStartsWith url "/tenants/" = false) :
    extractTenantId url = none ∧
    rbacDecision tc method url (some u) = rbacDecision tc2 method url (some u) := by
  have he : extractTenantId url = none := by simp [extractTenantId, h]
  refine ⟨he, ?_⟩
  unfold rbacDecision
  rw [he]
  exact rbacDecisionCtx_none_indep tc tc2 method url (some u)

/-- C10 witness: `/domains/d1` and a resolver pair that disagree
everywhere still give one and the same decision. -/
theorem C10_witness :
    extractTenantId "/domains/d1" = none ∧
    rbacDecision (fun _ _ _ => true) "GET" "/domains/d1" (some exUserTU) =
      rbacDecision (fun _ _ _ => false) "GET" "/domains/d1" (some exUserTU) :=
  C10_no_scoping_off_tenants_paths "GET" "/domains/d1" exUserTU
    (fun _ _ _ => true) (fun _ _ _ => false) (by decide)


/-! ## C1 -/

/-- The tenant-access characterization exactly as claim C1 states it: role
`PLATFORM_ADMIN`, or *at least one* membership with role `PARTNER_ADMIN`
whose tenant belongs to the partner that owns the target tenant, or a
membership binding exactly `(user, target)` with role `TENANT_ADMIN` or
`TENANT_USER`. -/
def claimedCanAccessTenant (db : DB) (userId tenantId : String) (role : Role) : Prop :=
  role = .PLATFORM_ADMIN ∨
  (∃ m ∈ db.memberships, m.user_id = userId ∧ m.role = .PARTNER_ADMIN ∧
    ∃ tn ∈ db.tenants, tn.id = m.tenant_id ∧
      ∃ t2 ∈ db.tenants, t2.partner_id = tn.partner_id ∧ t2.id = tenantId) ∨
  (∃ m ∈ db.memberships, m.user_id = userId ∧ m.tenant_id = tenantId ∧
    (m.role = .TENANT_ADMIN ∨ m.role = .TENANT_USER))

/-- Principal `"u"` holds `PARTNER_ADMIN` memberships in `"tA"` (owned by
partner `"p1"`) and in `"tB"` (owned by `"p2"`); tenant `"tC"` is owned by
`"p2"`. -/
def exDbTwoPartners : DB :=
  { memberships := [⟨"u", "tA", .PARTNER_ADMIN⟩, ⟨"u", "tB", .PARTNER_ADMIN⟩]
    tenants := [⟨"tA", "p1"⟩, ⟨"tB", "p2"⟩, ⟨"tC", "p2"⟩] }

/-- C1, counterexample: `"u"` has a `PARTNER_ADMIN` membership (on `"tB"`)
whose tenant's partner owns `"tC"`, so the claimed characterization holds;
but `checkTenantAccess` inspects only the *first* `PARTNER_ADMIN`
membership (`findFirst`), which is the one on `"tA"` under partner `"p1"`,
and denies. -/
theorem C1_counterexample :
    checkTenantAccess exDbTwoPartners false "u" "tC" .PARTNER_ADMIN = false ∧
    claimedCanAccessTenant exDbTwoPartners "u" "tC" .PARTNER_ADMIN := by
  constructor
  · decide
  · unfold claimedCanAccessTenant
    decide

/-- In a tenant table with pairwise-distinct ids, two rows with the same id
coincide. -/
theorem tenant_id_inj {l : List Tenant} (hw : l.Pairwise (fun a b => a.id ≠ b.id))
    {a b : Tenant} (ha : a ∈ l) (hb : b ∈ l) (h : a.id = b.id) : a = b := by
  by_contra hne
  exact (hw.forall (fun _ _ h2 => Ne.symm h2) ha hb hne) h

/-- C1, amended: with a healthy persistence layer and pairwise-distinct
tenant ids, `checkTenantAccess` answers `true` exactly when the asserted
role is `PLATFORM_ADMIN`; or it is `PARTNER_ADMIN` and the *first*
`PARTNER_ADMIN` membership of the user — not an arbitrary one — has a
tenant whose partner owns the target; or it is `TENANT_ADMIN`/`TENANT_USER`
and some membership binds exactly `(user, target)` with role
`TENANT_ADMIN` or `TENANT_USER`. -/
theorem C1_checkTenantAccess_characterization (db : DB) (userId tenantId : String)
    (role : Role) (hw : db.tenants.Pairwise (fun a b => a.id ≠ b.id)) :
    checkTenantAccess db false userId tenantId role = true ↔
      (role = .PLATFORM_ADMIN ∨
       (role = .PARTNER_ADMIN ∧
         ∃ m pre post, db.memberships = pre ++ m :: post ∧
           m.user_id = userId ∧ m.role = .PARTNER_ADMIN ∧
           (∀ m2 ∈ pre, ¬(m2.user_id = userId ∧ m2.role = .PARTNER_ADMIN)) ∧
           ∃ tn ∈ db.tenants, tn.id = m.tenant_id ∧
             ∃ t2 ∈ db.tenants, t2.partner_id = tn.partner_id ∧ t2.id = tenantId) ∨
       ((role = .TENANT_ADMIN ∨ role = .TENANT_USER) ∧
         ∃ m ∈ db.memberships, m.user_id = userId ∧ m.tenant_id = tenantId ∧
           (m.role = .TENANT_ADMIN ∨ m.role = .TENANT_USER))) := by
  cases role with
  | PLATFORM_ADMIN =>
    simp [checkTenantAccess, checkTenantAccessTry]
  | PARTNER_ADMIN =>
    rcases hfind : List.find?
        (fun m => m.user_id == userId && m.role == Role.PARTNER_ADMIN)
        db.memberships with _ | m
    · simp [checkTenantAccess, checkTenantAccessTry, hfind]
      rintro m pre post heq hu hr hpre
      have hsome : List.find?
          (fun m => m.user_id == userId && m.role == Role.PARTNER_ADMIN)
          db.memberships = some m :=
        List.find?_eq_some.mpr
          ⟨by simp [hu, hr], pre, post, heq, fun a ha => by have h3 := hpre a ha; simp at h3 ⊢; tauto⟩
      rw [hfind] at hsome
      exact absurd hsome (by simp)
    · rcases hfind2 : List.find? (fun t => t.id == m.tenant_id) db.tenants with _ | tn
      · simp [checkTenantAccess, checkTenantAccessTry, hfind, hfind2]
        rintro m2 pre post heq hu hr hpre tn htnmem htnid
        have hsome : List.find?
            (fun m => m.user_id == userId && m.role == Role.PARTNER_ADMIN)
            db.memberships = some m2 :=
          List.find?_eq_some.mpr
            ⟨by simp [hu, hr], pre, post, heq, fun a ha => by have h3 := hpre a ha; simp at h3 ⊢; tauto⟩
        rw [hfind] at hsome
        obtain rfl : m = m2 := by simpa using hsome
        have hnone := List.find?_eq_none.mp hfind2 tn htnmem
        simp [htnid] at hnone
      · simp only [checkTenantAccess, checkTenantAccessTry, hfind, hfind2,
          Bool.false_eq_true, if_false, decide_eq_true_eq]
        constructor
        · intro hpos
          obtain ⟨pm, pre, post, heq, hall⟩ := List.find?_eq_some.mp hfind
          obtain ⟨hu, hr⟩ : m.user_id = userId ∧ m.role = Role.PARTNER_ADMIN := by
            simpa using pm
          obtain ⟨t2, ht2⟩ := List.length_pos_iff_exists_mem.mp hpos
          obtain ⟨ht2mem, ht2q⟩ := List.mem_filter.mp ht2
          obtain ⟨ht2p, ht2id⟩ : t2.partner_id = tn.partner_id ∧ t2.id = tenantId := by
            simpa using ht2q
          have htn_id : tn.id = m.tenant_id := by
            simpa using List.find?_some hfind2
          exact Or.inr (Or.inl ⟨by trivial, m, pre, post, heq, hu, hr,
            fun a ha => by have h3 := hall a ha; simp at h3 ⊢; tauto,
            tn, List.mem_of_find?_eq_some hfind2, htn_id,
            t2, ht2mem, ht2p, ht2id⟩)
        · rintro (h | ⟨-, m2, pre, post, heq, hu, hr, hpre, tn2, htnmem, htnid,
              t2, ht2mem, ht2p, ht2id⟩ | ⟨hrole, -⟩)
          · exact absurd h (by simp)
          · have hsome : List.find?
                (fun m => m.user_id == userId && m.role == Role.PARTNER_ADMIN)
                db.memberships = some m2 :=
              List.find?_eq_some.mpr
                ⟨by simp [hu, hr], pre, post, heq, fun a ha => by have h3 := hpre a ha; simp at h3 ⊢; tauto⟩
            rw [hfind] at hsome
            obtain rfl : m = m2 := by simpa using hsome
            have htn_id : tn.id = m.tenant_id := by
              simpa using List.find?_some hfind2
            obtain rfl : tn2 = tn :=
              tenant_id_inj hw htnmem (List.mem_of_find?_eq_some hfind2)
                (htnid.trans htn_id.symm)
            exact List.length_pos_iff_exists_mem.mpr
              ⟨t2, List.mem_filter.mpr ⟨ht2mem, by simp [ht2p, ht2id]⟩⟩
          · rcases hrole with h | h <;> exact absurd h (by simp)
  | TENANT_ADMIN =>
    simp [checkTenantAccess, checkTenantAccessTry, List.find?_isSome,
      Bool.and_eq_true, Bool.or_eq_true, beq_iff_eq, and_assoc]
  | TENANT_USER =>
    simp [checkTenantAccess, checkTenantAccessTry, List.find?_isSome,
      Bool.and_eq_true, Bool.or_eq_true, beq_iff_eq, and_assoc]

/-- C1 witness: the amended characterization applied to spec scenario A:
`"u"` is `PARTNER_ADMIN` of `"t1"` under partner `"p1"`, which owns
`"t2"`; access to `"t2"` is granted. -/
theorem C1_witness :
    checkTenantAccess exDbA false "u" "t2" .PARTNER_ADMIN = true ↔
      (Role.PARTNER_ADMIN = Role.PLATFORM_ADMIN ∨
       (Role.PARTNER_ADMIN = Role.PARTNER_ADMIN ∧
         ∃ m pre post, exDbA.memberships = pre ++ m :: post ∧
           m.user_id = "u" ∧ m.role = .PARTNER_ADMIN ∧
           (∀ m2 ∈ pre, ¬(m2.user_id = "u" ∧ m2.role = .PARTNER_ADMIN)) ∧
           ∃ tn ∈ exDbA.tenants, tn.id = m.tenant_id ∧
             ∃ t2 ∈ exDbA.tenants, t2.partner_id = tn.partner_id ∧ t2.id = "t2") ∨
       ((Role.PARTNER_ADMIN = Role.TENANT_ADMIN ∨ Role.PARTNER_ADMIN = Role.TENANT_USER) ∧
         ∃ m ∈ exDbA.memberships, m.user_id = "u" ∧ m.tenant_id = "t2" ∧
           (m.role = .TENANT_ADMIN ∨ m.role = .TENANT_USER))) :=
  C1_checkTenantAccess_characterization exDbA "u" "t2" .PARTNER_ADMIN (by decide)

end Avantle
